import Mathlib

/-
Verification of the arx5-sdk real-time control core against its
natural-language specification.

The embedding follows src/src/app/cartesian_controller.cpp (the authoritative
Cartesian-controller variant), src/include/app/config.h and
src/src/app/high_level.cpp.  C++ doubles are modelled as rationals; every
numeric constant in the source is an exact decimal, so rational arithmetic is
faithful.  Clock reads (get_timestamp) are passed in explicitly as a `now`
argument; CAN I/O is modelled by the data handed to / received from the
gateway (frames sent, motor-message snapshot received).
-/

namespace Arx5

/-- Joint-space vector over the six arm joints (Eigen Vec6d in the source). -/
abbrev Vec6 := Fin 6 → ℚ

/-- Motor families of the seven smart motors (named in config.h). -/
inductive MotorType
  | EC_A4310
  | DM_J4310
  | DM_J4340
deriving DecidableEq

/-- Modelled from the spec: JointState (declared in joint_controller.h, which
is not under src/) = time, six-vectors pos/vel/torque, gripper scalars
(spec section 3). -/
structure JointState where
  timestamp : ℚ
  pos : Vec6
  vel : Vec6
  torque : Vec6
  gripper_pos : ℚ
  gripper_vel : ℚ
  gripper_torque : ℚ

/-- Default-constructed JointState: all fields zero (used by
`JointState target_state;` in reset_to_home and by `JointState()` in init). -/
def JointState.zero : JointState :=
  ⟨0, fun _ => 0, fun _ => 0, fun _ => 0, 0, 0, 0⟩

/-- Modelled from the spec: EEFState = time, pose6d (x,y,z,roll,pitch,yaw),
gripper scalars (spec section 3; declared in a header not under src/). -/
structure EEFState where
  timestamp : ℚ
  pose_6d : Vec6
  gripper_pos : ℚ
  gripper_vel : ℚ
  gripper_torque : ℚ

/-- Modelled from the spec: Gain = kp/kd six-vectors plus gripper kp/kd
(spec section 3; declared in a header not under src/). -/
structure Gain where
  kp : Vec6
  kd : Vec6
  gripper_kp : ℚ
  gripper_kd : ℚ

/-- Default-constructed Gain: all fields zero (`Gain()` in the source). -/
def Gain.zero : Gain := ⟨fun _ => 0, fun _ => 0, 0, 0⟩

/-- Modelled from the spec: componentwise addition on JointState
("Supports component-wise addition and scalar multiplication", spec
section 3; operator definitions live in a header not under src/). -/
def JointState.add (a b : JointState) : JointState :=
  ⟨a.timestamp + b.timestamp, fun i => a.pos i + b.pos i, fun i => a.vel i + b.vel i,
   fun i => a.torque i + b.torque i, a.gripper_pos + b.gripper_pos,
   a.gripper_vel + b.gripper_vel, a.gripper_torque + b.gripper_torque⟩

/-- Modelled from the spec: scalar multiplication on JointState. -/
def JointState.scale (a : JointState) (c : ℚ) : JointState :=
  ⟨a.timestamp * c, fun i => a.pos i * c, fun i => a.vel i * c,
   fun i => a.torque i * c, a.gripper_pos * c, a.gripper_vel * c, a.gripper_torque * c⟩

/-- Modelled from the spec: componentwise addition on Gain. -/
def Gain.add (a b : Gain) : Gain :=
  ⟨fun i => a.kp i + b.kp i, fun i => a.kd i + b.kd i,
   a.gripper_kp + b.gripper_kp, a.gripper_kd + b.gripper_kd⟩

/-- Modelled from the spec: scalar multiplication on Gain. -/
def Gain.scale (a : Gain) (c : ℚ) : Gain :=
  ⟨fun i => a.kp i * c, fun i => a.kd i * c, a.gripper_kp * c, a.gripper_kd * c⟩

/-- Robot/controller configuration as used by cartesian_controller.cpp, which
reads limits, motor tables, gain defaults, over_current_cnt_max and
controller_dt all from its single _ROBOT_CONFIG object.  Numeric tables are
from config.h (RobotConfigFactory / ControllerConfigFactory). -/
structure RobotConfig where
  joint_pos_min : Vec6
  joint_pos_max : Vec6
  joint_vel_max : Vec6
  joint_torque_max : Vec6
  gripper_vel_max : ℚ
  gripper_torque_max : ℚ
  gripper_width : ℚ
  gripper_open_readout : ℚ
  motor_id : Fin 7 → ℕ
  motor_type : Fin 7 → MotorType
  default_kp : Vec6
  default_kd : Vec6
  default_gripper_kp : ℚ
  default_gripper_kd : ℚ
  over_current_cnt_max : ℕ
  controller_dt : ℚ

/-- The shipped X5 configuration (config.h lines 102-122, merged with the
cartesian_controller gain defaults of config.h lines 188-196). -/
def X5 : RobotConfig where
  joint_pos_min := ![-3.14, -0.05, -0.1, -1.6, -1.57, -2]
  joint_pos_max := ![2.618, 3.14, 3.24, 1.55, 1.57, 2]
  joint_vel_max := ![3.0, 2.0, 2.0, 2.0, 3.0, 3.0]
  joint_torque_max := ![30.0, 40.0, 30.0, 15.0, 10.0, 10.0]
  gripper_vel_max := 0.1
  gripper_torque_max := 1.5
  gripper_width := 0.085
  gripper_open_readout := 4.8
  motor_id := ![1, 2, 4, 5, 6, 7, 8]
  motor_type := ![MotorType.EC_A4310, MotorType.EC_A4310, MotorType.EC_A4310,
                  MotorType.DM_J4310, MotorType.DM_J4310, MotorType.DM_J4310,
                  MotorType.DM_J4310]
  default_kp := ![150.0, 150.0, 200.0, 60.0, 30.0, 30.0]
  default_kd := ![5.0, 5.0, 5.0, 1.0, 1.0, 1.0]
  default_gripper_kp := 30.0
  default_gripper_kd := 0.2
  over_current_cnt_max := 20
  controller_dt := 0.005

/-- The shipped L5 configuration (config.h lines 123-143; only the motor
types differ from X5). -/
def L5 : RobotConfig where
  joint_pos_min := ![-3.14, -0.05, -0.1, -1.6, -1.57, -2]
  joint_pos_max := ![2.618, 3.14, 3.24, 1.55, 1.57, 2]
  joint_vel_max := ![3.0, 2.0, 2.0, 2.0, 3.0, 3.0]
  joint_torque_max := ![30.0, 40.0, 30.0, 15.0, 10.0, 10.0]
  gripper_vel_max := 0.1
  gripper_torque_max := 1.5
  gripper_width := 0.085
  gripper_open_readout := 4.8
  motor_id := ![1, 2, 4, 5, 6, 7, 8]
  motor_type := ![MotorType.DM_J4340, MotorType.DM_J4340, MotorType.DM_J4340,
                  MotorType.DM_J4310, MotorType.DM_J4310, MotorType.DM_J4310,
                  MotorType.DM_J4310]
  default_kp := ![150.0, 150.0, 200.0, 60.0, 30.0, 30.0]
  default_kd := ![5.0, 5.0, 5.0, 1.0, 1.0, 1.0]
  default_gripper_kp := 30.0
  default_gripper_kd := 0.2
  over_current_cnt_max := 20
  controller_dt := 0.005

/-- Decoded telemetry of one motor slot (OD_Motor_Msg fields read by
_send_recv). -/
structure OD_Motor_Msg where
  angle_actual_rad : ℚ
  speed_actual_rad : ℚ
  current_actual_float : ℚ

/-- Mutable controller fields of Arx5CartesianController touched by the
public operations verified here. -/
structure CtrlState where
  gain : Gain
  input_joint_cmd : JointState
  output_joint_cmd : JointState
  joint_state : JointState
  input_eef_cmd : EEFState
  output_eef_cmd : EEFState
  interp_start_eef_cmd : EEFState
  over_current_cnt : ℕ
  background_send_recv_running : Bool

/-- Eigen isZero() on a six-vector (exact-zero reading of the tolerance-zero
test, sound for the rational embedding). -/
def vec_is_zero (v : Vec6) : Prop := ∀ i, v i = 0

instance (v : Vec6) : Decidable (vec_is_zero v) :=
  inferInstanceAs (Decidable (∀ i, v i = 0))

/-- cwiseAbs().maxCoeff() of a six-vector: the maximum of the six absolute
entries. -/
def cwise_abs_max (v : Vec6) : ℚ :=
  max (max (max (max (max |v 0| |v 1|) |v 2|) |v 3|) |v 4|) |v 5|

/-- max over i of the absolute difference of two six-vectors, as computed in
set_gain (cartesian_controller.cpp line 144). -/
def abs_max_coeff (a b : Vec6) : ℚ :=
  cwise_abs_max (fun i => a i - b i)

/-- set_gain (cartesian_controller.cpp lines 138-156).  The thrown
runtime_error is modelled by the Bool: false means the call raised after
setting _background_send_recv_running to false with the gain untouched. -/
def set_gain (s : CtrlState) (g : Gain) : CtrlState × Bool :=
  if vec_is_zero s.gain.kp ∧ ¬ vec_is_zero g.kp then
    if 0.2 < abs_max_coeff s.joint_state.pos s.output_joint_cmd.pos then
      ({ s with background_send_recv_running := false }, false)
    else
      ({ s with gain := g }, true)
  else
    ({ s with gain := g }, true)

/-- set_eef_cmd (cartesian_controller.cpp lines 77-95).  get_timestamp() is
passed in as `now`. -/
def set_eef_cmd (s : CtrlState) (now : ℚ) (new_cmd : EEFState) : CtrlState :=
  let cleaned :=
    if new_cmd.gripper_vel ≠ 0 ∨ new_cmd.gripper_torque ≠ 0 then
      { new_cmd with gripper_vel := 0, gripper_torque := 0 }
    else new_cmd
  if cleaned.timestamp ≠ 0 ∧ cleaned.timestamp < now then s
  else { s with input_eef_cmd := cleaned, interp_start_eef_cmd := s.output_eef_cmd }

/-- Two-sided range clipping as written in the source: the lower bound is
tested first (cartesian_controller.cpp lines 290-318). -/
def clip_low_high (v lo hi : ℚ) : ℚ :=
  if v < lo then lo else if hi < v then hi else v

/-- Symmetric torque clipping: upper bound first (cartesian_controller.cpp
lines 333-347). -/
def clip_sym (v m : ℚ) : ℚ :=
  if m < v then m else if v < -m then -m else v

/-- Per-joint velocity clipping stage of _update_output_cmd
(cartesian_controller.cpp lines 253-269): with positive kp the step from the
previous output is rate-limited; with kp[i] == 0 the command holds the
currently measured position. -/
def joint_vel_clipped (cfg : RobotConfig) (gain : Gain)
    (joint_state input prev : JointState) (i : Fin 6) : ℚ :=
  if 0 < gain.kp i then
    let delta_pos := input.pos i - prev.pos i
    let max_vel := cfg.joint_vel_max i
    if max_vel * cfg.controller_dt < |delta_pos| then
      prev.pos i + max_vel * cfg.controller_dt * (delta_pos / |delta_pos|)
    else input.pos i
  else joint_state.pos i

/-- Gripper velocity clipping stage (cartesian_controller.cpp lines 270-286);
the C++ writes this same value on each of the six loop iterations. -/
def gripper_vel_clipped (cfg : RobotConfig) (gain : Gain)
    (joint_state input prev : JointState) : ℚ :=
  if 0 < gain.gripper_kp then
    let gripper_delta_pos := input.gripper_pos - prev.gripper_pos
    if cfg.gripper_vel_max < |gripper_delta_pos| / cfg.controller_dt then
      prev.gripper_pos + cfg.gripper_vel_max * cfg.controller_dt *
        (gripper_delta_pos / |gripper_delta_pos|)
    else input.gripper_pos
  else joint_state.gripper_pos

/-- Gripper command after range clipping and stall suppression
(cartesian_controller.cpp lines 305-330). -/
def gripper_shaped (cfg : RobotConfig) (gain : Gain)
    (joint_state input prev : JointState) : ℚ :=
  let clipped := clip_low_high (gripper_vel_clipped cfg gain joint_state input prev)
      0 cfg.gripper_width
  if cfg.gripper_torque_max / 2 < |joint_state.gripper_torque| then
    let sign : ℚ := if 0 < joint_state.gripper_torque then 1 else -1
    let delta_pos := clipped - prev.gripper_pos
    if 0 < delta_pos * sign then prev.gripper_pos else clipped
  else clipped

/-- _update_output_cmd (cartesian_controller.cpp lines 243-348): copy the
input command, then velocity-clip, position-clip, gripper-clip,
stall-suppress and torque-clip in source order. -/
def update_output_cmd (cfg : RobotConfig) (gain : Gain)
    (joint_state input prev : JointState) : JointState :=
  { input with
    pos := fun i =>
      clip_low_high (joint_vel_clipped cfg gain joint_state input prev i)
        (cfg.joint_pos_min i) (cfg.joint_pos_max i)
    gripper_pos := gripper_shaped cfg gain joint_state input prev
    torque := fun i => clip_sym (input.torque i) (cfg.joint_torque_max i) }

/-- External inputs observed by one command-shaping tick: the gain, the
latest published joint state and the latest input command. -/
structure TickInput where
  gain : Gain
  joint_state : JointState
  input_cmd : JointState

/-- Output command after a sequence of command-shaping ticks starting from
the zero-initialized _output_joint_cmd of the freshly constructed
controller. -/
def run_output_cmd (cfg : RobotConfig) (ticks : List TickInput) : JointState :=
  ticks.foldl
    (fun out t => update_output_cmd cfg t.gain t.joint_state t.input_cmd out)
    JointState.zero

/-- Whether one tick observes an over-current condition: some arm joint above
its torque limit or the gripper above its torque limit
(cartesian_controller.cpp lines 352-366). -/
def over_current_observed (cfg : RobotConfig) (js : JointState) : Bool :=
  decide ((∃ i : Fin 6, cfg.joint_torque_max i < |js.torque i|) ∨
    cfg.gripper_torque_max < |js.gripper_torque|)

/-- One step of the over-current counter on an observation bit: a violating
tick increments the counter and trips emergency once it exceeds the maximum;
a clean tick resets it to zero; emergency is terminal
(cartesian_controller.cpp lines 367-379 together with the non-returning
_enter_emergency_state). -/
def oc_step (M : ℕ) (st : ℕ × Bool) (b : Bool) : ℕ × Bool :=
  if st.2 then st
  else if b then (st.1 + 1, decide (M < st.1 + 1))
  else (0, false)

/-- _over_current_protection applied to one published joint state
(cartesian_controller.cpp lines 350-380). -/
def over_current_protection (cfg : RobotConfig) (js : JointState)
    (st : ℕ × Bool) : ℕ × Bool :=
  oc_step cfg.over_current_cnt_max st (over_current_observed cfg js)

/-- Counter and emergency flag after a trace of servo ticks, starting from a
zero counter and no emergency. -/
def run_over_current (cfg : RobotConfig) (trace : List JointState) : ℕ × Bool :=
  trace.foldl (fun st js => over_current_protection cfg js st) (0, false)

/-- _check_joint_state_sanity trigger condition (cartesian_controller.cpp
lines 382-416): any disjunct makes the tick enter the emergency state. -/
def check_joint_state_sanity (cfg : RobotConfig) (js input : JointState) : Prop :=
  (∃ i : Fin 6,
      cfg.joint_pos_max i + 3.14 < |js.pos i| ∨
      |js.pos i| < cfg.joint_pos_min i - 3.14 ∨
      cfg.joint_pos_max i + 3.14 < |input.pos i| ∨
      |input.pos i| < cfg.joint_pos_min i - 3.14 ∨
      100 * cfg.joint_torque_max i < |js.torque i|) ∨
  js.gripper_pos < -0.005 ∨
  cfg.gripper_width + 0.005 < js.gripper_pos

/-- Modelled from the spec (claim comparison): the sanity trigger with the
two lower-bound position disjuncts removed. -/
def check_joint_state_sanity_upper (cfg : RobotConfig) (js input : JointState) : Prop :=
  (∃ i : Fin 6,
      cfg.joint_pos_max i + 3.14 < |js.pos i| ∨
      cfg.joint_pos_max i + 3.14 < |input.pos i| ∨
      100 * cfg.joint_torque_max i < |js.torque i|) ∨
  js.gripper_pos < -0.005 ∨
  cfg.gripper_width + 0.005 < js.gripper_pos

/-- Empirical torque constant of the EC_A4310 motors, Nm/A
(cartesian_controller.cpp line 444). -/
def torque_constant_EC_A4310 : ℚ := 1.4

/-- Torque constant of the DM_J4310 motors (cartesian_controller.cpp
line 445). -/
def torque_constant_DM_J4310 : ℚ := 0.424

/-- Torque constant of the DM_J4340 motors (cartesian_controller.cpp
line 446). -/
def torque_constant_DM_J4340 : ℚ := 1.0

/-- One set-point frame handed to the CAN gateway; is_DM records which
protocol variant (send_DM_motor_cmd versus send_EC_motor_cmd) was used. -/
structure MotorCmdFrame where
  is_DM : Bool
  can_id : ℕ
  kp : ℚ
  kd : ℚ
  pos : ℚ
  vel : ℚ
  current : ℚ

/-- Frame sent for arm joint i on the transmit half of _send_recv
(cartesian_controller.cpp lines 453-482): the commanded torque is divided by
the per-type torque constant to obtain the commanded current. -/
def send_motor_frame (cfg : RobotConfig) (gain : Gain) (out : JointState)
    (i : Fin 6) : MotorCmdFrame :=
  match cfg.motor_type i.castSucc with
  | MotorType.EC_A4310 =>
      ⟨false, cfg.motor_id i.castSucc, gain.kp i, gain.kd i, out.pos i, out.vel i,
        out.torque i / torque_constant_EC_A4310⟩
  | MotorType.DM_J4310 =>
      ⟨true, cfg.motor_id i.castSucc, gain.kp i, gain.kd i, out.pos i, out.vel i,
        out.torque i / torque_constant_DM_J4310⟩
  | MotorType.DM_J4340 =>
      ⟨true, cfg.motor_id i.castSucc, gain.kp i, gain.kd i, out.pos i, out.vel i,
        out.torque i / torque_constant_DM_J4340⟩

/-- Gripper frame sent on the transmit half of _send_recv
(cartesian_controller.cpp lines 485-490). -/
def send_gripper_frame (cfg : RobotConfig) (gain : Gain) (out : JointState) :
    MotorCmdFrame :=
  ⟨true, cfg.motor_id 6, gain.gripper_kp, gain.gripper_kd,
    out.gripper_pos / cfg.gripper_width * cfg.gripper_open_readout, 0, 0⟩

/-- All seven frames of one transmit pass, in bus order. -/
def send_frames (cfg : RobotConfig) (gain : Gain) (out : JointState) :
    List MotorCmdFrame :=
  (List.finRange 6).map (send_motor_frame cfg gain out) ++
    [send_gripper_frame cfg gain out]

/-- Receive half of _send_recv (cartesian_controller.cpp lines 496-540):
positions and speeds of the six arm joints come from message slots
0,1,3,4,5,6 and the gripper from slot 7; torques are decoded from slot
ids[i] = motor_id[i] with the per-type constant, the EC_A4310 constant being
applied twice (the HACK comment at line 520). -/
def send_recv_decode (cfg : RobotConfig) (msg : ℕ → OD_Motor_Msg)
    (prev : JointState) (now : ℚ) : JointState :=
  { prev with
    pos := ![(msg 0).angle_actual_rad, (msg 1).angle_actual_rad,
             (msg 3).angle_actual_rad, (msg 4).angle_actual_rad,
             (msg 5).angle_actual_rad, (msg 6).angle_actual_rad]
    vel := ![(msg 0).speed_actual_rad, (msg 1).speed_actual_rad,
             (msg 3).speed_actual_rad, (msg 4).speed_actual_rad,
             (msg 5).speed_actual_rad, (msg 6).speed_actual_rad]
    gripper_pos := (msg 7).angle_actual_rad / cfg.gripper_open_readout *
      cfg.gripper_width
    gripper_vel := (msg 7).speed_actual_rad / cfg.gripper_open_readout *
      cfg.gripper_width
    torque := fun i =>
      match cfg.motor_type i.castSucc with
      | MotorType.EC_A4310 =>
          (msg (cfg.motor_id i.castSucc)).current_actual_float *
            torque_constant_EC_A4310 * torque_constant_EC_A4310
      | MotorType.DM_J4310 =>
          (msg (cfg.motor_id i.castSucc)).current_actual_float *
            torque_constant_DM_J4310
      | MotorType.DM_J4340 =>
          (msg (cfg.motor_id i.castSucc)).current_actual_float *
            torque_constant_DM_J4340
    gripper_torque := (msg 7).current_actual_float * torque_constant_DM_J4310
    timestamp := now }

/-- Modelled from the spec (claim comparison): the slot map the spec declares
authoritative for arm positions, joint[0..5] from msg[{0,1,3,4,5,6}]. -/
def arm_slot : Fin 6 → ℕ := ![0, 1, 3, 4, 5, 6]

/-- Modelled from the spec (claim comparison): per-family torque constant as
listed in the spec (EC_A4310 1.4 Nm/A, DM_J4310 0.424, DM_J4340 1.0). -/
def spec_torque_constant : MotorType → ℚ
  | MotorType.EC_A4310 => 1.4
  | MotorType.DM_J4310 => 0.424
  | MotorType.DM_J4340 => 1.0

/-- Modelled from the spec (claim comparison): the decode multiplier the
claim states, the torque constant squared for EC_A4310 and the plain
constant for the DM families. -/
def spec_decode_factor : MotorType → ℚ
  | MotorType.EC_A4310 =>
      spec_torque_constant MotorType.EC_A4310 * spec_torque_constant MotorType.EC_A4310
  | MotorType.DM_J4310 => spec_torque_constant MotorType.DM_J4310
  | MotorType.DM_J4340 => spec_torque_constant MotorType.DM_J4340

/-- EEF-command interpolation at the head of _calc_joint_cmd
(cartesian_controller.cpp lines 552-578); `prev_output` is the previous
_output_eef_cmd, whose gripper_vel and gripper_torque fields the
interpolation branch leaves untouched. -/
def calc_output_eef_cmd (input interp_start prev_output : EEFState)
    (now : ℚ) : EEFState :=
  if input.timestamp = 0 then
    { input with timestamp := now }
  else if input.timestamp < now then
    { input with timestamp := now }
  else
    let alpha := (now - interp_start.timestamp) /
      (input.timestamp - interp_start.timestamp)
    { prev_output with
      pose_6d := fun i =>
        interp_start.pose_6d i * (1 - alpha) + input.pose_6d i * alpha
      gripper_pos :=
        interp_start.gripper_pos * (1 - alpha) + input.gripper_pos * alpha
      timestamp := now }

/-- Gain built from the configured defaults, as constructed in reset_to_home
(cartesian_controller.cpp lines 179-180). -/
def default_gain (cfg : RobotConfig) : Gain :=
  ⟨cfg.default_kp, cfg.default_kd, cfg.default_gripper_kp, cfg.default_gripper_kd⟩

/-- max_pos_error of reset_to_home (cartesian_controller.cpp lines 190-191):
largest initial joint distance from zero, also accounting for the gripper
travel scaled into radians-equivalent units. -/
def reset_max_pos_error (cfg : RobotConfig) (init : JointState) : ℚ :=
  max (cwise_abs_max init.pos) (init.gripper_pos * 2 / cfg.gripper_width)

/-- step_num of reset_to_home (cartesian_controller.cpp line 194). -/
def reset_step_num (cfg : RobotConfig) (init : JointState) : ℚ :=
  max (reset_max_pos_error cfg init * 2) 0.5 / cfg.controller_dt

/-- Number of loop iterations of `for (int i = 0; i <= step_num; ++i)` with
real-valued step_num. -/
def reset_step_count (cfg : RobotConfig) (init : JointState) : ℕ :=
  if reset_step_num cfg init < 0 then 0
  else (Int.floor (reset_step_num cfg init)).toNat + 1

/-- target_gain of reset_to_home (cartesian_controller.cpp lines 176-185):
the defaults when the current kp is zero, otherwise the current gain. -/
def reset_target_gain (cfg : RobotConfig) (g : Gain) : Gain :=
  if vec_is_zero g.kp then default_gain cfg else g

/-- Commands issued by iteration k of the reset_to_home loop
(cartesian_controller.cpp lines 200-210): the interpolated gain passed to
set_gain, the interpolated joint state, and the EEF command passed to
set_eef_cmd (pose via forward kinematics fk, zero timestamp).  The
interpolation target target_state is the default-constructed JointState. -/
def reset_cmd_at (cfg : RobotConfig) (fk : Vec6 → Vec6) (init : JointState)
    (init_gain : Gain) (k : ℕ) : Gain × JointState × EEFState :=
  let alpha : ℚ := (k : ℚ) / reset_step_num cfg init
  let gain := (init_gain.scale (1 - alpha)).add
    ((reset_target_gain cfg init_gain).scale alpha)
  let joint_cmd := (init.scale (1 - alpha)).add (JointState.zero.scale alpha)
  (gain, joint_cmd, ⟨0, fk joint_cmd.pos, joint_cmd.gripper_pos, 0, 0⟩)

/-- Full command sequence issued by one reset_to_home call
(cartesian_controller.cpp lines 168-214). -/
def reset_to_home_cmds (cfg : RobotConfig) (fk : Vec6 → Vec6)
    (init : JointState) (init_gain : Gain) : List (Gain × JointState × EEFState) :=
  (List.range (reset_step_count cfg init)).map (reset_cmd_at cfg fk init init_gain)

/-- C4: set_gain replaces the gain unless the transition would re-energize a
slack arm far from its stale setpoint: with current kp zero, new kp non-zero
and max joint position error above 0.2 rad it fails, stops the background
loop, and leaves the stored gain (and everything else) unchanged. -/
theorem set_gain_spec (s : CtrlState) (g : Gain) :
    set_gain s g =
      if vec_is_zero s.gain.kp ∧ ¬ vec_is_zero g.kp ∧
          0.2 < abs_max_coeff s.joint_state.pos s.output_joint_cmd.pos then
        ({ s with background_send_recv_running := false }, false)
      else
        ({ s with gain := g }, true) := by
  by_cases hA : vec_is_zero s.gain.kp <;>
    by_cases hB : vec_is_zero g.kp <;>
      by_cases hC : 0.2 < abs_max_coeff s.joint_state.pos s.output_joint_cmd.pos <;>
        simp [set_gain, hA, hB, hC]

/-- C9: set_eef_cmd ignores a stale command (non-zero timestamp strictly in
the past) without touching any state, and otherwise stores the command with
gripper_vel and gripper_torque forced to zero while capturing
interp_start_eef_cmd from the current output_eef_cmd. -/
theorem set_eef_cmd_spec (s : CtrlState) (now : ℚ) (cmd : EEFState) :
    set_eef_cmd s now cmd =
      if cmd.timestamp ≠ 0 ∧ cmd.timestamp < now then s
      else { s with
        input_eef_cmd := { cmd with gripper_vel := 0, gripper_torque := 0 },
        interp_start_eef_cmd := s.output_eef_cmd } := by
  cases cmd with
  | mk t p gp gv gt =>
    by_cases hv : gv = 0
    · by_cases hw : gt = 0
      · subst hv; subst hw; simp [set_eef_cmd]
      · simp [set_eef_cmd, hv, hw]
    · simp [set_eef_cmd, hv]

/-- A sanity trigger with all joint position lower bounds non-positive never
fires through the lower-bound disjuncts, so it coincides with the upper-only
version. -/
theorem sanity_iff_of_min_nonpos (cfg : RobotConfig)
    (hmin : ∀ i, cfg.joint_pos_min i ≤ 0) (js input : JointState) :
    check_joint_state_sanity cfg js input ↔
      check_joint_state_sanity_upper cfg js input := by
  have hno : ∀ (i : Fin 6) (x : ℚ), ¬ |x| < cfg.joint_pos_min i - 3.14 := by
    intro i x
    have h1 := hmin i
    have h2 := abs_nonneg x
    intro h
    linarith
  unfold check_joint_state_sanity check_joint_state_sanity_upper
  constructor
  · rintro (⟨i, h1 | h2 | h3 | h4 | h5⟩ | h | h)
    · exact Or.inl ⟨i, Or.inl h1⟩
    · exact absurd h2 (hno i _)
    · exact Or.inl ⟨i, Or.inr (Or.inl h3)⟩
    · exact absurd h4 (hno i _)
    · exact Or.inl ⟨i, Or.inr (Or.inr h5)⟩
    · exact Or.inr (Or.inl h)
    · exact Or.inr (Or.inr h)
  · rintro (⟨i, h1 | h3 | h5⟩ | h | h)
    · exact Or.inl ⟨i, Or.inl h1⟩
    · exact Or.inl ⟨i, Or.inr (Or.inr (Or.inl h3))⟩
    · exact Or.inl ⟨i, Or.inr (Or.inr (Or.inr (Or.inr h5)))⟩
    · exact Or.inr (Or.inl h)
    · exact Or.inr (Or.inr h)

/-- C10: for the shipped X5 and L5 configurations every joint_pos_min is at
most zero, so the lower-bound sanity disjunct compares a non-negative
absolute value against a negative bound and can never hold; the sanity check
is equivalent to its upper-bound-only form. -/
theorem sanity_lower_bound_vacuous :
    (∀ (i : Fin 6) (x : ℚ), X5.joint_pos_min i - 3.14 ≤ |x|) ∧
    (∀ (i : Fin 6) (x : ℚ), L5.joint_pos_min i - 3.14 ≤ |x|) ∧
    (∀ js input, check_joint_state_sanity X5 js input ↔
      check_joint_state_sanity_upper X5 js input) ∧
    (∀ js input, check_joint_state_sanity L5 js input ↔
      check_joint_state_sanity_upper L5 js input) := by
  have hX : ∀ i : Fin 6, X5.joint_pos_min i ≤ 0 := by
    intro i
    fin_cases i <;> norm_num [X5]
  have hL : ∀ i : Fin 6, L5.joint_pos_min i ≤ 0 := by
    intro i
    fin_cases i <;> norm_num [L5]
  refine ⟨fun i x => ?_, fun i x => ?_,
    sanity_iff_of_min_nonpos X5 hX, sanity_iff_of_min_nonpos L5 hL⟩
  · have h1 := hX i
    have h2 := abs_nonneg x
    linarith
  · have h1 := hL i
    have h2 := abs_nonneg x
    linarith

/-- C8: the published joint torque is the decoded current times the claimed
per-family factor (the EC_A4310 constant applied twice, the DM constants
once), the gripper torque uses the DM_J4310 constant, and the transmitted
current is the commanded torque divided by the unsquared per-family
constant. -/
theorem torque_constant_spec (cfg : RobotConfig) (gain : Gain)
    (out : JointState) (msg : ℕ → OD_Motor_Msg) (prev : JointState) (now : ℚ) :
    (∀ i : Fin 6, (send_recv_decode cfg msg prev now).torque i =
        (msg (cfg.motor_id i.castSucc)).current_actual_float *
          spec_decode_factor (cfg.motor_type i.castSucc)) ∧
    ((send_recv_decode cfg msg prev now).gripper_torque =
        (msg 7).current_actual_float * spec_torque_constant MotorType.DM_J4310) ∧
    (∀ i : Fin 6, (send_motor_frame cfg gain out i).current =
        out.torque i / spec_torque_constant (cfg.motor_type i.castSucc)) := by
  refine ⟨fun i => ?_, ?_, fun i => ?_⟩
  · cases h : cfg.motor_type i.castSucc <;>
      simp [send_recv_decode, spec_decode_factor, spec_torque_constant, h,
        torque_constant_EC_A4310, torque_constant_DM_J4310,
        torque_constant_DM_J4340, mul_assoc]
  · simp [send_recv_decode, spec_torque_constant, torque_constant_DM_J4310]
  · cases h : cfg.motor_type i.castSucc <;>
      simp [send_motor_frame, spec_torque_constant, h,
        torque_constant_EC_A4310, torque_constant_DM_J4310,
        torque_constant_DM_J4340]

/-- C1 (amended): arm joint positions and velocities are decoded from
message slots {0,1,3,4,5,6} and all gripper telemetry from slot 7, but the
arm joint torques are decoded from slots motor_id[i] (= {1,2,4,5,6,7} for the
shipped configurations), not from {0,1,3,4,5,6}. -/
theorem telemetry_slot_map (cfg : RobotConfig) (msg : ℕ → OD_Motor_Msg)
    (prev : JointState) (now : ℚ) :
    (∀ k : Fin 6,
      (send_recv_decode cfg msg prev now).pos k = (msg (arm_slot k)).angle_actual_rad ∧
      (send_recv_decode cfg msg prev now).vel k = (msg (arm_slot k)).speed_actual_rad ∧
      (send_recv_decode cfg msg prev now).torque k =
        (msg (cfg.motor_id k.castSucc)).current_actual_float *
          spec_decode_factor (cfg.motor_type k.castSucc)) ∧
    ((send_recv_decode cfg msg prev now).gripper_pos =
      (msg 7).angle_actual_rad / cfg.gripper_open_readout * cfg.gripper_width) ∧
    ((send_recv_decode cfg msg prev now).gripper_vel =
      (msg 7).speed_actual_rad / cfg.gripper_open_readout * cfg.gripper_width) ∧
    ((send_recv_decode cfg msg prev now).gripper_torque =
      (msg 7).current_actual_float * spec_torque_constant MotorType.DM_J4310) := by
  refine ⟨fun k => ⟨?_, ?_, ?_⟩, rfl, rfl, ?_⟩
  · fin_cases k <;> rfl
  · fin_cases k <;> rfl
  · cases h : cfg.motor_type k.castSucc <;>
      simp [send_recv_decode, spec_decode_factor, spec_torque_constant, h,
        torque_constant_EC_A4310, torque_constant_DM_J4310,
        torque_constant_DM_J4340, mul_assoc]
  · simp [send_recv_decode, spec_torque_constant, torque_constant_DM_J4310]

/-- C1 counterexample: with the X5 configuration and a snapshot whose slot 0
carries current 1 A while slot 1 carries 2 A, joint 0's decoded torque is
98/25 = 2 * 1.4 * 1.4 (from slot motor_id[0] = 1), not 49/25 = 1 * 1.4 * 1.4
as reading slot 0 would give. -/
theorem torque_slot_counterexample :
    (send_recv_decode X5
      (fun n => if n = 0 then (⟨0, 0, 1⟩ : OD_Motor_Msg)
        else if n = 1 then ⟨0, 0, 2⟩ else ⟨0, 0, 0⟩)
      JointState.zero 0).torque 0 = 98/25 ∧
    ((1 : ℚ) * (torque_constant_EC_A4310 * torque_constant_EC_A4310) = 49/25) ∧
    ((49/25 : ℚ) < 98/25) := by
  refine ⟨?_, by norm_num [torque_constant_EC_A4310], by norm_num⟩
  norm_num [send_recv_decode, X5, torque_constant_EC_A4310]

/-- C3 (amended): with kp[i] == 0 the command-shaping step writes the
measured joint_state.pos[i] and then position-clips it, so the output equals
the measured position clamped into [joint_pos_min[i], joint_pos_max[i]]; it
equals joint_state.pos[i] exactly whenever the measurement is inside the
limits. -/
theorem kp_zero_holds_measured_pos (cfg : RobotConfig) (gain : Gain)
    (js input prev : JointState) (i : Fin 6) (h : gain.kp i = 0) :
    (update_output_cmd cfg gain js input prev).pos i =
      clip_low_high (js.pos i) (cfg.joint_pos_min i) (cfg.joint_pos_max i) ∧
    (cfg.joint_pos_min i ≤ js.pos i → js.pos i ≤ cfg.joint_pos_max i →
      (update_output_cmd cfg gain js input prev).pos i = js.pos i) := by
  have hstage : joint_vel_clipped cfg gain js input prev i = js.pos i := by
    unfold joint_vel_clipped
    rw [h]
    simp
  constructor
  · simp [update_output_cmd, hstage]
  · intro h1 h2
    simp [update_output_cmd, hstage, clip_low_high, not_lt.mpr h1, not_lt.mpr h2]

/-- C3 witness: a concrete state with kp zero and the measured position 1 rad
inside the X5 limits is held exactly. -/
theorem kp_zero_holds_measured_pos_witness :
    Gain.zero.kp 0 = 0 ∧
    (update_output_cmd X5 Gain.zero
        (⟨0, fun _ => 1, fun _ => 0, fun _ => 0, 0, 0, 0⟩ : JointState)
        JointState.zero JointState.zero).pos 0 =
      (⟨0, fun _ => 1, fun _ => 0, fun _ => 0, 0, 0, 0⟩ : JointState).pos 0 :=
  ⟨rfl,
    (kp_zero_holds_measured_pos X5 Gain.zero
      ⟨0, fun _ => 1, fun _ => 0, fun _ => 0, 0, 0, 0⟩
      JointState.zero JointState.zero 0 rfl).2 (by norm_num [X5])
      (by norm_num [X5])⟩

/-- C3 counterexample: with kp zero and a measured position of -3.5 rad
(which passes the sanity check) the shaped output on the X5 is the clamped
-3.14, not the measured -3.5. -/
theorem kp_zero_hold_counterexample :
    (update_output_cmd X5 Gain.zero
        (⟨0, ![-3.5, 0, 0, 0, 0, 0], fun _ => 0, fun _ => 0, 0, 0, 0⟩ : JointState)
        JointState.zero JointState.zero).pos 0 = -157/50 ∧
    (⟨0, ![-3.5, 0, 0, 0, 0, 0], fun _ => 0, fun _ => 0, 0, 0, 0⟩ : JointState).pos 0
      = -7/2 ∧
    ((-7/2 : ℚ) < -157/50) := by
  refine ⟨?_, by norm_num, by norm_num⟩
  norm_num [update_output_cmd, joint_vel_clipped, clip_low_high, Gain.zero,
    JointState.zero, X5]

/-- C6 (amended): zero-timestamp commands are copied through with the
timestamp replaced by now; a command whose timestamp has passed is held with
its timestamp replaced by now; otherwise pose6d and gripper_pos are the
componentwise linear interpolation between interp_start and the input with
coefficient alpha, so at the temporal midpoint the pose is the average of
the two endpoint poses. -/
theorem eef_interpolation_spec (input start prev : EEFState) (now : ℚ) :
    (input.timestamp = 0 →
      calc_output_eef_cmd input start prev now = { input with timestamp := now }) ∧
    (input.timestamp ≠ 0 → input.timestamp < now →
      calc_output_eef_cmd input start prev now = { input with timestamp := now }) ∧
    (input.timestamp ≠ 0 → ¬ input.timestamp < now →
      (∀ i, (calc_output_eef_cmd input start prev now).pose_6d i =
        start.pose_6d i *
          (1 - (now - start.timestamp) / (input.timestamp - start.timestamp)) +
        input.pose_6d i *
          ((now - start.timestamp) / (input.timestamp - start.timestamp))) ∧
      (calc_output_eef_cmd input start prev now).gripper_pos =
        start.gripper_pos *
          (1 - (now - start.timestamp) / (input.timestamp - start.timestamp)) +
        input.gripper_pos *
          ((now - start.timestamp) / (input.timestamp - start.timestamp))) ∧
    (input.timestamp ≠ 0 → start.timestamp < input.timestamp →
      now = (start.timestamp + input.timestamp) / 2 →
      ∀ i, (calc_output_eef_cmd input start prev now).pose_6d i =
        (start.pose_6d i + input.pose_6d i) / 2) := by
  refine ⟨fun h0 => ?_, fun h0 h1 => ?_, fun h0 h1 => ?_, fun h0 h1 h2 => ?_⟩
  · simp [calc_output_eef_cmd, h0]
  · simp [calc_output_eef_cmd, h0, h1]
  · constructor
    · intro i
      simp [calc_output_eef_cmd, h0, h1]
    · simp [calc_output_eef_cmd, h0, h1]
  · intro i
    have hlt : ¬ input.timestamp < now := by
      rw [h2]
      intro hcon
      linarith
    have hne : input.timestamp - start.timestamp ≠ 0 := by
      intro hcon
      apply absurd h1
      simp
      linarith
    have halpha : (now - start.timestamp) / (input.timestamp - start.timestamp)
        = 1/2 := by
      rw [h2]
      rw [div_eq_iff hne]
      ring
    simp only [calc_output_eef_cmd, h0, hlt, if_false, if_neg h0]
    rw [halpha]
    ring

/-- C6 witness: a concrete segment from pose 1 at t = 0 to pose 3 at t = 1,
sampled at the midpoint t = 1/2, outputs the average pose 2. -/
theorem eef_interpolation_spec_witness :
    ((⟨1, fun _ => 3, 5, 0, 0⟩ : EEFState)).timestamp ≠ 0 ∧
    ((⟨0, fun _ => 1, 1, 0, 0⟩ : EEFState)).timestamp <
      ((⟨1, fun _ => 3, 5, 0, 0⟩ : EEFState)).timestamp ∧
    ((1/2 : ℚ) = (((⟨0, fun _ => 1, 1, 0, 0⟩ : EEFState)).timestamp +
      ((⟨1, fun _ => 3, 5, 0, 0⟩ : EEFState)).timestamp) / 2) ∧
    (∀ i, (calc_output_eef_cmd (⟨1, fun _ => 3, 5, 0, 0⟩ : EEFState)
        (⟨0, fun _ => 1, 1, 0, 0⟩ : EEFState)
        (⟨0, fun _ => 0, 0, 0, 0⟩ : EEFState) (1/2)).pose_6d i =
      (((⟨0, fun _ => 1, 1, 0, 0⟩ : EEFState)).pose_6d i +
        ((⟨1, fun _ => 3, 5, 0, 0⟩ : EEFState)).pose_6d i) / 2) :=
  ⟨by norm_num, by norm_num, by norm_num,
    (eef_interpolation_spec ⟨1, fun _ => 3, 5, 0, 0⟩ ⟨0, fun _ => 1, 1, 0, 0⟩
      ⟨0, fun _ => 0, 0, 0, 0⟩ (1/2)).2.2.2 (by norm_num) (by norm_num)
      (by norm_num)⟩

/-- Range clipping lands inside the range whenever the range is nonempty. -/
theorem clip_low_high_mem (v lo hi : ℚ) (h : lo ≤ hi) :
    lo ≤ clip_low_high v lo hi ∧ clip_low_high v lo hi ≤ hi := by
  unfold clip_low_high
  split_ifs with h1 h2
  · exact ⟨le_refl lo, h⟩
  · exact ⟨h, le_refl hi⟩
  · exact ⟨not_lt.mp h1, not_lt.mp h2⟩

/-- Symmetric clipping bounds the absolute value whenever the bound is
non-negative. -/
theorem clip_sym_abs (v m : ℚ) (h : 0 ≤ m) : |clip_sym v m| ≤ m := by
  unfold clip_sym
  split_ifs with h1 h2
  · rw [abs_of_nonneg h]
  · rw [abs_of_nonpos (neg_nonpos.mpr h), neg_neg]
  · exact abs_le.mpr ⟨not_lt.mp h2, not_lt.mp h1⟩

/-- The shaped gripper command stays inside [0, gripper_width] provided the
previous output gripper command was inside it (stall suppression can fall
back to the previous value). -/
theorem gripper_shaped_mem (cfg : RobotConfig) (gain : Gain)
    (js input prev : JointState) (hw : 0 ≤ cfg.gripper_width)
    (hprev : 0 ≤ prev.gripper_pos ∧ prev.gripper_pos ≤ cfg.gripper_width) :
    0 ≤ gripper_shaped cfg gain js input prev ∧
      gripper_shaped cfg gain js input prev ≤ cfg.gripper_width := by
  have hc := clip_low_high_mem (gripper_vel_clipped cfg gain js input prev)
    0 cfg.gripper_width hw
  unfold gripper_shaped
  dsimp only
  split_ifs with h1 h2 h3 h4 <;> first | exact hprev | exact hc

/-- The gripper range is an inductive invariant of the command-shaping
fold. -/
theorem foldl_output_gripper_range (cfg : RobotConfig)
    (hw : 0 ≤ cfg.gripper_width) :
    ∀ (ticks : List TickInput) (out : JointState),
      0 ≤ out.gripper_pos → out.gripper_pos ≤ cfg.gripper_width →
      0 ≤ (ticks.foldl
          (fun o t => update_output_cmd cfg t.gain t.joint_state t.input_cmd o)
          out).gripper_pos ∧
        (ticks.foldl
          (fun o t => update_output_cmd cfg t.gain t.joint_state t.input_cmd o)
          out).gripper_pos ≤ cfg.gripper_width := by
  intro ticks
  induction ticks with
  | nil => exact fun out h1 h2 => ⟨h1, h2⟩
  | cons t ts ih =>
      intro out h1 h2
      have hstep := gripper_shaped_mem cfg t.gain t.joint_state t.input_cmd out
        hw ⟨h1, h2⟩
      exact ih (update_output_cmd cfg t.gain t.joint_state t.input_cmd out)
        hstep.1 hstep.2

/-- The output command reached after any tick history keeps its gripper
command inside [0, gripper_width]. -/
theorem run_output_gripper_range (cfg : RobotConfig)
    (hw : 0 ≤ cfg.gripper_width) (ticks : List TickInput) :
    0 ≤ (run_output_cmd cfg ticks).gripper_pos ∧
      (run_output_cmd cfg ticks).gripper_pos ≤ cfg.gripper_width :=
  foldl_output_gripper_range cfg hw ticks JointState.zero (le_refl 0) hw

/-- C5: after the command-shaping step of any tick following init, every
joint position command lies inside its limits (in particular for joints with
positive kp), the gripper command lies in [0, gripper_width], and every
torque command is bounded by joint_torque_max. -/
theorem output_cmd_invariants (cfg : RobotConfig)
    (hlim : ∀ i, cfg.joint_pos_min i ≤ cfg.joint_pos_max i)
    (hw : 0 ≤ cfg.gripper_width)
    (ht : ∀ i, 0 ≤ cfg.joint_torque_max i)
    (hist : List TickInput) (t : TickInput) :
    (∀ i, 0 < t.gain.kp i →
      cfg.joint_pos_min i ≤
        (update_output_cmd cfg t.gain t.joint_state t.input_cmd
          (run_output_cmd cfg hist)).pos i ∧
      (update_output_cmd cfg t.gain t.joint_state t.input_cmd
        (run_output_cmd cfg hist)).pos i ≤ cfg.joint_pos_max i) ∧
    (0 ≤ (update_output_cmd cfg t.gain t.joint_state t.input_cmd
        (run_output_cmd cfg hist)).gripper_pos ∧
      (update_output_cmd cfg t.gain t.joint_state t.input_cmd
        (run_output_cmd cfg hist)).gripper_pos ≤ cfg.gripper_width) ∧
    (∀ i, |(update_output_cmd cfg t.gain t.joint_state t.input_cmd
        (run_output_cmd cfg hist)).torque i| ≤ cfg.joint_torque_max i) := by
  refine ⟨fun i _ => ?_, ?_, fun i => ?_⟩
  · exact clip_low_high_mem _ _ _ (hlim i)
  · exact gripper_shaped_mem cfg t.gain t.joint_state t.input_cmd
      (run_output_cmd cfg hist) hw (run_output_gripper_range cfg hw hist)
  · exact clip_sym_abs _ _ (ht i)

/-- C5 witness: the three config-side hypotheses hold for the shipped X5
tables, and the invariants hold concretely for the first tick after init. -/
theorem output_cmd_invariants_witness :
    (∀ i, X5.joint_pos_min i ≤ X5.joint_pos_max i) ∧
    (0 ≤ X5.gripper_width) ∧
    (∀ i, 0 ≤ X5.joint_torque_max i) ∧
    ((∀ i, 0 < (default_gain X5).kp i →
      X5.joint_pos_min i ≤
        (update_output_cmd X5 (default_gain X5) JointState.zero JointState.zero
          (run_output_cmd X5 [])).pos i ∧
      (update_output_cmd X5 (default_gain X5) JointState.zero JointState.zero
        (run_output_cmd X5 [])).pos i ≤ X5.joint_pos_max i) ∧
    (0 ≤ (update_output_cmd X5 (default_gain X5) JointState.zero JointState.zero
        (run_output_cmd X5 [])).gripper_pos ∧
      (update_output_cmd X5 (default_gain X5) JointState.zero JointState.zero
        (run_output_cmd X5 [])).gripper_pos ≤ X5.gripper_width) ∧
    (∀ i, |(update_output_cmd X5 (default_gain X5) JointState.zero JointState.zero
        (run_output_cmd X5 [])).torque i| ≤ X5.joint_torque_max i)) := by
  have h1 : ∀ i, X5.joint_pos_min i ≤ X5.joint_pos_max i := by
    intro i
    fin_cases i <;> norm_num [X5]
  have h2 : (0:ℚ) ≤ X5.gripper_width := by norm_num [X5]
  have h3 : ∀ i, (0:ℚ) ≤ X5.joint_torque_max i := by
    intro i
    fin_cases i <;> norm_num [X5]
  exact ⟨h1, h2, h3,
    output_cmd_invariants X5 h1 h2 h3 []
      ⟨default_gain X5, JointState.zero, JointState.zero⟩⟩

/-- Once the emergency flag is set the counter fold never changes state. -/
theorem oc_fold_emg (M : ℕ) :
    ∀ (l : List Bool) (c : ℕ), l.foldl (oc_step M) (c, true) = (c, true) := by
  intro l
  induction l with
  | nil => intro c; rfl
  | cons b l ih => intro c; exact ih c

/-- Characterization of the over-current counter fold, generalized over the
incoming count c: the emergency flag ends true exactly when some all-true
run either extends the c trailing violations past M at the head, or occurs
with length M+1 anywhere in the remaining trace. -/
theorem oc_fold_spec (M : ℕ) :
    ∀ (l : List Bool) (c : ℕ), c ≤ M →
      (((l.foldl (oc_step M) (c, false)).2 = true) ↔
        ((∃ p q, l = p ++ q ∧ (∀ b ∈ p, b = true) ∧ M < c + p.length) ∨
         ∃ s t, l = s ++ List.replicate (M+1) true ++ t)) := by
  intro l
  induction l with
  | nil =>
      intro c hc
      simp only [List.foldl_nil]
      constructor
      · intro h
        exact absurd h (by simp)
      · rintro (⟨p, q, hpq, hall, hlen⟩ | ⟨s, t, hst⟩)
        · have hp : p = [] := (List.append_eq_nil.mp hpq.symm).1
          subst hp
          simp at hlen
          omega
        · have := congrArg List.length hst
          simp at this
          omega
  | cons b l ih =>
      intro c hc
      cases b
      case false =>
        have h1 : oc_step M (c, false) false = (0, false) := by simp [oc_step]
        rw [List.foldl_cons, h1, ih 0 (Nat.zero_le M)]
        constructor
        · rintro (⟨p, q, hpq, hall, hlen⟩ | ⟨s, t, hst⟩)
          · have hplen : M + 1 ≤ p.length := by omega
            have hp : p = List.replicate p.length true := List.eq_replicate_of_mem hall
            have hsplit : List.replicate p.length true =
                List.replicate (M+1) true ++ List.replicate (p.length - (M+1)) true := by
              rw [← List.replicate_add]
              congr 1
              omega
            refine Or.inr ⟨[false], List.replicate (p.length - (M+1)) true ++ q, ?_⟩
            conv_lhs => rw [hpq, hp, hsplit]
            simp
            rw [List.replicate_add, List.append_assoc]
          · right
            exact ⟨false :: s, t, by simp [hst]⟩
        · rintro (⟨p, q, hpq, hall, hlen⟩ | ⟨s, t, hst⟩)
          · cases p with
            | nil =>
                simp at hlen
                omega
            | cons x p' =>
                have hx : x = true := hall x (List.mem_cons_self x p')
                have hhead : false = x := by
                  have := congrArg (fun l => l.head?) hpq
                  simpa using this
                rw [hx] at hhead
                exact absurd hhead (by simp)
          · cases s with
            | nil =>
                rw [List.replicate_succ] at hst
                have hhead : false = true := by
                  have := congrArg (fun l => l.head?) hst
                  simpa using this
                exact absurd hhead (by simp)
            | cons y s' =>
                have htail : l = s' ++ List.replicate (M+1) true ++ t := by
                  have := congrArg List.tail hst
                  simpa using this
                exact Or.inr ⟨s', t, htail⟩
      case true =>
        by_cases hcM : M < c + 1
        · have h1 : oc_step M (c, false) true = (c + 1, true) := by
            simp [oc_step, hcM]
          rw [List.foldl_cons, h1, oc_fold_emg M l (c+1)]
          constructor
          · intro _
            exact Or.inl ⟨[true], l, rfl, by simp, by simpa using hcM⟩
          · intro _
            rfl
        · have h1 : oc_step M (c, false) true = (c + 1, false) := by
            simp [oc_step, hcM]
          have hc1 : c + 1 ≤ M := by omega
          rw [List.foldl_cons, h1, ih (c+1) hc1]
          constructor
          · rintro (⟨p, q, hpq, hall, hlen⟩ | ⟨s, t, hst⟩)
            · left
              refine ⟨true :: p, q, by simp [hpq], ?_, ?_⟩
              · intro x hx
                rcases List.mem_cons.mp hx with h | h
                · exact h
                · exact hall x h
              · simp only [List.length_cons]
                omega
            · right
              exact ⟨true :: s, t, by simp [hst]⟩
          · rintro (⟨p, q, hpq, hall, hlen⟩ | ⟨s, t, hst⟩)
            · cases p with
              | nil =>
                  simp at hlen
                  omega
              | cons x p' =>
                  have htail : l = p' ++ q := by
                    have := congrArg List.tail hpq
                    simpa using this
                  left
                  refine ⟨p', q, htail, fun b hb => hall b (List.mem_cons_of_mem x hb), ?_⟩
                  simp only [List.length_cons] at hlen
                  omega
            · cases s with
              | nil =>
                  rw [List.replicate_succ] at hst
                  have htail : l = List.replicate M true ++ t := by
                    have := congrArg List.tail hst
                    simpa using this
                  left
                  refine ⟨List.replicate M true, t, htail,
                    fun b hb => List.eq_of_mem_replicate hb, ?_⟩
                  simp only [List.length_replicate]
                  omega
              | cons y s' =>
                  have htail : l = s' ++ List.replicate (M+1) true ++ t := by
                    have := congrArg List.tail hst
                    simpa using this
                  exact Or.inr ⟨s', t, htail⟩

/-- C7: the over-current protection ends in the emergency state exactly when
the trace contains over_current_cnt_max + 1 consecutive ticks that each
observe an over-current condition; in particular a clean tick in between
(which resets the counter) prevents the trip, and emergency is never entered
with fewer consecutive violations. -/
theorem over_current_emergency_iff (cfg : RobotConfig)
    (trace : List JointState) :
    ((run_over_current cfg trace).2 = true) ↔
      ∃ s t, trace.map (over_current_observed cfg) =
        s ++ List.replicate (cfg.over_current_cnt_max + 1) true ++ t := by
  have hfold : run_over_current cfg trace =
      (trace.map (over_current_observed cfg)).foldl
        (oc_step cfg.over_current_cnt_max) (0, false) := by
    rw [run_over_current, List.foldl_map]
    rfl
  rw [hfold,
    oc_fold_spec cfg.over_current_cnt_max (trace.map (over_current_observed cfg))
      0 (Nat.zero_le _)]
  constructor
  · rintro (⟨p, q, hpq, hall, hlen⟩ | h)
    · have hplen : cfg.over_current_cnt_max + 1 ≤ p.length := by omega
      have hp : p = List.replicate p.length true := List.eq_replicate_of_mem hall
      have hsplit : List.replicate p.length true =
          List.replicate (cfg.over_current_cnt_max + 1) true ++
            List.replicate (p.length - (cfg.over_current_cnt_max + 1)) true := by
        rw [← List.replicate_add]
        congr 1
        omega
      refine ⟨[], List.replicate (p.length - (cfg.over_current_cnt_max + 1)) true ++ q, ?_⟩
      conv_lhs => rw [hpq, hp, hsplit]
      simp
      rw [List.replicate_add, List.append_assoc]
    · exact h
  · intro h
    exact Or.inr h

/-- C6 counterexample: with an input command stamped t = 1 sampled at
now = 2, the hold branch replaces the output timestamp with 2, so the output
does not equal the input (whose timestamp is 1). -/
theorem eef_hold_timestamp_counterexample :
    (calc_output_eef_cmd (⟨1, fun _ => 1, 0, 0, 0⟩ : EEFState)
        (⟨0, fun _ => 1, 0, 0, 0⟩ : EEFState)
        (⟨0, fun _ => 0, 0, 0, 0⟩ : EEFState) 2).timestamp = 2 ∧
    ((⟨1, fun _ => 1, 0, 0, 0⟩ : EEFState)).timestamp = 1 ∧
    ((1 : ℚ) < 2) := by
  refine ⟨by norm_num [calc_output_eef_cmd], rfl, by norm_num⟩

/-- Linear interpolation between a gain and itself is the identity. -/
theorem gain_lerp_self (g : Gain) (a : ℚ) : (g.scale (1 - a)).add (g.scale a) = g := by
  cases g with
  | mk kp kd gkp gkd =>
      simp only [Gain.scale, Gain.add, Gain.mk.injEq]
      exact ⟨funext fun i => by ring, funext fun i => by ring, by ring, by ring⟩

/-- The last element of a range mapped through a function. -/
theorem range_map_getLast {α : Type} (f : ℕ → α) (n : ℕ) :
    ((List.range (n+1)).map f).getLast? = some (f n) := by
  rw [List.range_succ, List.map_append]
  simp

/-- C2 (amended): iteration k of the Cartesian controller reset_to_home loop
issues the linear interpolation from the initial state toward the
default-constructed target, so the commanded joint positions and the
commanded gripper position interpolate to 0 (gripper fully closed, not
gripper_width); the gain interpolates from the initial gain to the defaults
when the initial kp is zero and is held at the initial gain otherwise; the
loop takes max(2*max_pos_error, 0.5)/controller_dt steps (plus the 0.5 s
hold afterwards); at the final step of an integral step_num the commanded
joint and gripper positions are exactly 0. -/
theorem reset_to_home_cmds_spec (cfg : RobotConfig) (fk : Vec6 → Vec6)
    (init : JointState) (init_gain : Gain) (k : ℕ)
    (hk : k < reset_step_count cfg init) :
    ((reset_to_home_cmds cfg fk init init_gain).length = reset_step_count cfg init) ∧
    ((reset_to_home_cmds cfg fk init init_gain)[k]? =
      some (reset_cmd_at cfg fk init init_gain k)) ∧
    (∀ i, (reset_cmd_at cfg fk init init_gain k).2.1.pos i =
      (1 - (k : ℚ) / reset_step_num cfg init) * init.pos i) ∧
    ((reset_cmd_at cfg fk init init_gain k).2.2.gripper_pos =
      (1 - (k : ℚ) / reset_step_num cfg init) * init.gripper_pos) ∧
    (vec_is_zero init_gain.kp →
      (reset_cmd_at cfg fk init init_gain k).1 =
        (init_gain.scale (1 - (k : ℚ) / reset_step_num cfg init)).add
          ((default_gain cfg).scale ((k : ℚ) / reset_step_num cfg init))) ∧
    (¬ vec_is_zero init_gain.kp →
      (reset_cmd_at cfg fk init init_gain k).1 = init_gain) ∧
    ((k : ℚ) = reset_step_num cfg init → reset_step_num cfg init ≠ 0 →
      (∀ i, (reset_cmd_at cfg fk init init_gain k).2.1.pos i = 0) ∧
      (reset_cmd_at cfg fk init init_gain k).2.2.gripper_pos = 0) := by
  have hpos : ∀ i, (reset_cmd_at cfg fk init init_gain k).2.1.pos i =
      (1 - (k : ℚ) / reset_step_num cfg init) * init.pos i := by
    intro i
    simp [reset_cmd_at, JointState.scale, JointState.add, JointState.zero]
    ring
  have hgrip : (reset_cmd_at cfg fk init init_gain k).2.2.gripper_pos =
      (1 - (k : ℚ) / reset_step_num cfg init) * init.gripper_pos := by
    simp [reset_cmd_at, JointState.scale, JointState.add, JointState.zero]
    ring
  refine ⟨by simp [reset_to_home_cmds], ?_, hpos, hgrip, ?_, ?_, ?_⟩
  · simp [reset_to_home_cmds, List.getElem?_range hk]
  · intro h
    simp [reset_cmd_at, reset_target_gain, h]
  · intro h
    have htg : reset_target_gain cfg init_gain = init_gain := by
      simp [reset_target_gain, h]
    show (init_gain.scale _).add ((reset_target_gain cfg init_gain).scale _) = init_gain
    rw [htg]
    exact gain_lerp_self init_gain _
  · intro hk2 hs
    have ha : (k : ℚ) / reset_step_num cfg init = 1 := by
      rw [hk2]
      exact div_self hs
    constructor
    · intro i
      rw [hpos i, ha]
      ring
    · rw [hgrip, ha]
      ring

/-- C2 witness: the first loop iteration from the all-zero state under the
X5 configuration. -/
theorem reset_to_home_cmds_spec_witness :
    (0 < reset_step_count X5 JointState.zero) ∧
    (((reset_to_home_cmds X5 (fun _ _ => 1) JointState.zero Gain.zero).length =
        reset_step_count X5 JointState.zero) ∧
    ((reset_to_home_cmds X5 (fun _ _ => 1) JointState.zero Gain.zero)[0]? =
      some (reset_cmd_at X5 (fun _ _ => 1) JointState.zero Gain.zero 0)) ∧
    (∀ i, (reset_cmd_at X5 (fun _ _ => 1) JointState.zero Gain.zero 0).2.1.pos i =
      (1 - (0 : ℚ) / reset_step_num X5 JointState.zero) * JointState.zero.pos i) ∧
    ((reset_cmd_at X5 (fun _ _ => 1) JointState.zero Gain.zero 0).2.2.gripper_pos =
      (1 - (0 : ℚ) / reset_step_num X5 JointState.zero) * JointState.zero.gripper_pos) ∧
    (vec_is_zero Gain.zero.kp →
      (reset_cmd_at X5 (fun _ _ => 1) JointState.zero Gain.zero 0).1 =
        (Gain.zero.scale (1 - (0 : ℚ) / reset_step_num X5 JointState.zero)).add
          ((default_gain X5).scale ((0 : ℚ) / reset_step_num X5 JointState.zero))) ∧
    (¬ vec_is_zero Gain.zero.kp →
      (reset_cmd_at X5 (fun _ _ => 1) JointState.zero Gain.zero 0).1 = Gain.zero) ∧
    (((0 : ℕ) : ℚ) = reset_step_num X5 JointState.zero →
      reset_step_num X5 JointState.zero ≠ 0 →
      (∀ i, (reset_cmd_at X5 (fun _ _ => 1) JointState.zero Gain.zero 0).2.1.pos i = 0) ∧
      (reset_cmd_at X5 (fun _ _ => 1) JointState.zero Gain.zero 0).2.2.gripper_pos = 0)) := by
  have hs : reset_step_num X5 JointState.zero = 100 := by
    norm_num [reset_step_num, reset_max_pos_error, cwise_abs_max,
      JointState.zero, X5]
  have hk0 : 0 < reset_step_count X5 JointState.zero := by
    unfold reset_step_count
    rw [hs]
    rw [if_neg (by norm_num)]
    exact Nat.succ_pos _
  exact ⟨hk0,
    reset_to_home_cmds_spec X5 (fun _ _ => 1) JointState.zero Gain.zero 0 hk0⟩

/-- C2 counterexample: starting with the gripper fully open (0.085 m) and a
non-zero kp, the X5 reset_to_home loop runs 801 steps and its final command
closes the gripper to 0 rather than gripper_width = 0.085, while the issued
gain stays at the initial kp = 1 rather than interpolating to the default
kp = 150. -/
theorem reset_to_home_gripper_counterexample :
    ((reset_to_home_cmds X5 (fun _ _ => 1)
        ⟨0, fun _ => 0, fun _ => 0, fun _ => 0, 0.085, 0, 0⟩
        ⟨fun _ => 1, fun _ => 0, 0, 0⟩).getLast? =
      some (reset_cmd_at X5 (fun _ _ => 1)
        ⟨0, fun _ => 0, fun _ => 0, fun _ => 0, 0.085, 0, 0⟩
        ⟨fun _ => 1, fun _ => 0, 0, 0⟩ 800)) ∧
    ((reset_cmd_at X5 (fun _ _ => 1)
        ⟨0, fun _ => 0, fun _ => 0, fun _ => 0, 0.085, 0, 0⟩
        ⟨fun _ => 1, fun _ => 0, 0, 0⟩ 800).2.2.gripper_pos = 0) ∧
    ((0 : ℚ) < X5.gripper_width) ∧
    ((reset_cmd_at X5 (fun _ _ => 1)
        ⟨0, fun _ => 0, fun _ => 0, fun _ => 0, 0.085, 0, 0⟩
        ⟨fun _ => 1, fun _ => 0, 0, 0⟩ 800).1.kp 0 = 1) ∧
    ((1 : ℚ) < X5.default_kp 0) := by
  have hs : reset_step_num X5 ⟨0, fun _ => 0, fun _ => 0, fun _ => 0, 0.085, 0, 0⟩
      = 800 := by
    norm_num [reset_step_num, reset_max_pos_error, cwise_abs_max, X5]
  have hcount : reset_step_count X5
      ⟨0, fun _ => 0, fun _ => 0, fun _ => 0, 0.085, 0, 0⟩ = 801 := by
    unfold reset_step_count
    rw [hs]
    rw [if_neg (by norm_num)]
    rfl
  have htg : reset_target_gain X5 ⟨fun _ => 1, fun _ => 0, 0, 0⟩ =
      ⟨fun _ => 1, fun _ => 0, 0, 0⟩ := by
    unfold reset_target_gain
    rw [if_neg]
    intro h
    exact one_ne_zero (h 0)
  refine ⟨?_, ?_, by norm_num [X5], ?_, by norm_num [X5]⟩
  · show ((List.range (reset_step_count X5 _)).map _).getLast? = _
    rw [hcount]
    exact range_map_getLast _ 800
  · simp only [reset_cmd_at, hs, JointState.scale, JointState.add, JointState.zero]
    norm_num
  · simp only [reset_cmd_at, htg, hs, Gain.scale, Gain.add]
    norm_num

end Arx5
